import Mathlib

/-!
Verification of the clipper command-line parsing library
(`src/include/clipper.hpp`, the final revision of the header) against its
natural-language specification.

The development is a shallow embedding of the option registry and the
parsing/validation engine:

* `Value` / `VType` model the supported option value types
  (integral types with an explicit range, character, `std::string`,
  `std::filesystem::path`); floating-point options are outside the model.
* `OptDesc` models `CLI::option_base` together with its two concrete
  variants `CLI::option<Tp>` (value options) and `CLI::option<bool>`
  (flags).  Caller-owned write targets (`Tp* _ptr`) are modelled as
  indices into a `Store`, a total map from indices to values.
* `Clipper` models `CLI::basic_clipper`: the name index `_names`
  (an `unordered_map` whose insertion silently overwrites an existing
  entry), the descriptor vector `_options`, the help/version trigger
  names, the static required counter `any_req` (a single parser instance
  is modelled, so the type-level static counter coincides with a field),
  the `_allow_no_args` switch, `_args_count` and the error list `_wrong`.
* `assign`, `parseLoop` (the token-consuming loop of `parse` with the
  inlined `set_option`), `finishParse` and `parse` model the runtime.

Machine-integer behaviour that matters is explicit: `std::size_t`
decrement wraps modulo `2 ^ 64` (`decSize`), and `std::from_chars`
rejects out-of-range numeric tokens instead of wrapping
(`from_chars_int`).
-/

/-- A runtime value held by a caller-owned write target. -/
inductive Value where
  | vint (n : Int)
  | vchar (c : Char)
  | vstr (s : String)
  | vbool (b : Bool)
  deriving DecidableEq

/-- The value type of an option descriptor.  An integral C++ type is
modelled by its (inclusive) range `[lo, hi]`; `strT` is `std::string`
and `pathT` is `std::filesystem::path` (both satisfy the header's
`is_string` concept and get identical treatment in `assign`). -/
inductive VType where
  | intT (lo hi : Int)
  | charT
  | strT
  | pathT
  deriving DecidableEq

/-- Value-initialisation `Tp()` of each modelled value type: zero for
integral types, the NUL character, the empty string. -/
def defaultValue : VType → Value
  | .intT _ _ => .vint 0
  | .charT => .vchar (Char.ofNat 0)
  | .strT => .vstr ""
  | .pathT => .vstr ""

/-- The variant of a descriptor: a flag (`CLI::option<bool>`), or a typed
value option (`CLI::option<Tp>`) with its allow-list `_match_list` and
optional validator `_match_func`.  The allow-list is kept as a list with
membership semantics; `std::set` ordering/deduplication only affects the
rendering in `value_info`. -/
inductive OptKind where
  | flagK
  | valK (ty : VType) (matchList : List Value) (matchFunc : Option (Value → Bool))

/-- One option descriptor: the fields of `CLI::option_base` (`name`,
`alt_name`, `_vname`, `_doc`, `_req`) plus the variant data and the
write target `_ptr`, modelled as an optional index into the store
(`none` models a null `_ptr`, i.e. `set` was never called). -/
structure OptDesc where
  name : String
  alt_name : String := ""
  vname : String := "value"
  docStr : String := ""
  req : Bool := false
  ptr : Option Nat := none
  kind : OptKind

/-- The caller's variables: a total map from target indices to values. -/
abbrev Store := Nat → Value

/-- Write one caller variable. -/
def writeStore (st : Store) (i : Nat) (v : Value) : Store :=
  fun j => if j = i then v else st j

/-- Write through a descriptor's `_ptr`.  A null `_ptr` write is
undefined behaviour in C++; it is modelled as a no-op, and every theorem
about a bound descriptor supplies a real target index. -/
def writePtr (p : Option Nat) (st : Store) (v : Value) : Store :=
  match p with
  | none => st
  | some i => writeStore st i v

/-- Decimal digits to a natural number, most significant first. -/
def digitsToNat : List Char → Nat → Nat
  | [], acc => acc
  | c :: cs, acc => digitsToNat cs (acc * 10 + (c.toNat - 48))

/-- The numeric value of the leading integer pattern of a token, exactly
as matched by `std::from_chars`: an optional minus sign (only when the
destination type is signed), then a maximal non-empty run of decimal
digits.  No range check is applied here and trailing non-digit
characters are ignored, as `option<Tp>::assign` only inspects `ec`. -/
def numPrefixVal (signedOk : Bool) (s : String) : Option Int :=
  match s.data with
  | '-' :: rest =>
    if signedOk then
      let ds := rest.takeWhile Char.isDigit
      if ds.isEmpty then none else some (-(digitsToNat ds 0 : Int))
    else none
  | cs =>
    let ds := cs.takeWhile Char.isDigit
    if ds.isEmpty then none else some (digitsToNat ds 0 : Int)

/-- Model of `std::from_chars` into an integral type with range
`[lo, hi]`: the leading integer pattern is matched syntactically and the
resulting value is range-checked; an out-of-range value is an error
(`std::errc::result_out_of_range`), never wrapped or truncated. -/
def from_chars_int (lo hi : Int) (s : String) : Option Int :=
  match numPrefixVal (decide (lo < 0)) s with
  | none => none
  | some v => if lo ≤ v ∧ v ≤ hi then some v else none

/-- Membership side of `option<Tp>::validate`: an empty `_match_list`
accepts everything, otherwise the value must be listed. -/
def matchListOk (ml : List Value) (v : Value) : Bool :=
  ml.isEmpty || ml.contains v

/-- Model of `option<Tp>::validate(val)`: when no `_match_func` is set
only the allow-list is consulted, otherwise the predicate must accept
the value and the allow-list must admit it. -/
def validateV (ml : List Value) (mf : Option (Value → Bool)) (v : Value) : Bool :=
  match mf with
  | none => matchListOk ml v
  | some f => f v && matchListOk ml v

/-- Dummy descriptor used as the (never reached) default of vector
indexing. -/
def dummyOpt : OptDesc :=
  { name := "", kind := .flagK }

/-- Model of `option<Tp>::assign(val)` and `option<bool>::assign`.
Returns the updated store and whether a `std::logic_error` was thrown.

Mirrors the source exactly, branch per branch:
* flags set the target to `true` unconditionally and never throw;
* string/path options first write `*_ptr = val` and only then validate,
  throwing with the target already overwritten on a validation failure;
* character options validate `val.front()` and write only on success
  (`front()` on an empty token is undefined behaviour in C++; it is
  modelled as a throw without a write);
* integral options run `from_chars` into a temporary and write only
  when conversion and validation both succeed. -/
def assign (o : OptDesc) (st : Store) (tok : String) : Store × Bool :=
  match o.kind with
  | .flagK => (writePtr o.ptr st (.vbool true), false)
  | .valK ty ml mf =>
    match ty with
    | .strT =>
      let st2 := writePtr o.ptr st (.vstr tok)
      if validateV ml mf (.vstr tok) then (st2, false) else (st2, true)
    | .pathT =>
      let st2 := writePtr o.ptr st (.vstr tok)
      if validateV ml mf (.vstr tok) then (st2, false) else (st2, true)
    | .charT =>
      match tok.data.head? with
      | some c =>
        if validateV ml mf (.vchar c) then (writePtr o.ptr st (.vchar c), false)
        else (st, true)
      | none => (st, true)
    | .intT lo hi =>
      match from_chars_int lo hi tok with
      | some n =>
        if validateV ml mf (.vint n) then (writePtr o.ptr st (.vint n), false)
        else (st, true)
      | none => (st, true)

/-- The value type of a value option (unused for flags). -/
def OptDesc.tyOf (o : OptDesc) : VType :=
  match o.kind with
  | .valK ty _ _ => ty
  | .flagK => .strT

/-- Model of `option<Tp>::set(value_name, ref)`: binds the write target
and the value name, and immediately writes the value-initialised default
`Tp()` through the fresh pointer. -/
def OptDesc.set (o : OptDesc) (value_name : String) (tgt : Nat) (st : Store) :
    OptDesc × Store :=
  ({ o with vname := value_name, ptr := some tgt },
   writeStore st tgt (defaultValue o.tyOf))

/-- Model of `option<Tp>::set(value_name, ref, def)`: binds the write
target and immediately writes `static_cast<Tp>(def)` (the default value,
already converted to the option's value type). -/
def OptDesc.setD (o : OptDesc) (value_name : String) (tgt : Nat) (d : Value)
    (st : Store) : OptDesc × Store :=
  ({ o with vname := value_name, ptr := some tgt }, writeStore st tgt d)

/-- Model of `option<bool>::set(ref)`: binds the write target and
immediately writes `bool{}`, i.e. `false`. -/
def OptDesc.setFlag (o : OptDesc) (tgt : Nat) (st : Store) : OptDesc × Store :=
  ({ o with ptr := some tgt }, writeStore st tgt (.vbool false))

/-- Rendering of a single allow-list element inside `value_info`
(`std::to_string` for integers, the raw character, the raw string). -/
def renderValue : Value → String
  | .vint n => toString n
  | .vchar c => String.mk [c]
  | .vstr s => s
  | .vbool _ => ""

/-- Model of `value_info()`: `<value_name>` without an allow-list, a
parenthesised space-separated enumeration otherwise; flags render as the
empty string. -/
def value_info (o : OptDesc) : String :=
  match o.kind with
  | .flagK => ""
  | .valK _ ml _ =>
    if ml.isEmpty then "<" ++ o.vname ++ ">"
    else "(" ++ String.intercalate " " (ml.map renderValue) ++ ")"

/-- Model of `option_base::detailed_synopsis()`:
`[alt_name, ] name value_info`. -/
def detailed_synopsis (o : OptDesc) : String :=
  (if o.alt_name.isEmpty then "" else o.alt_name ++ ", ") ++ o.name ++ " " ++ value_info o

/-- The error string pushed for an unrecognized token (the spelling,
including the typo, is the source's). -/
def unknownMsg (tok : String) : String :=
  "[" ++ tok ++ "] Unkonown argument"

/-- The error string pushed when a value option is the last token. -/
def missingValueMsg (nm : String) : String :=
  "[" ++ nm ++ "] Missing option value"

/-- The error string pushed when `assign` throws. -/
def invalidValueMsg (nm tok : String) (o : OptDesc) : String :=
  "[" ++ nm ++ "] Value " ++ tok ++ " is not allowed \n\t\x7b " ++
    detailed_synopsis o ++ "  " ++ o.docStr ++ " \x7d"

/-- The error string pushed when required options remain unmatched. -/
def missingReqMsg (n : Nat) : String :=
  "Missing required argument(s) " ++ toString n

/-- Exact-key association-list lookup, modelling `unordered_map::find` /
`contains` on `_names` (exact, case-sensitive string comparison). -/
def mapFind : List (String × Nat) → String → Option Nat
  | [], _ => none
  | (k', v') :: m, k => if k' = k then some v' else mapFind m k

/-- Association-list insertion with `unordered_map::operator[]`
semantics: an existing entry for the key is silently overwritten. -/
def mapInsert : List (String × Nat) → String → Nat → List (String × Nat)
  | [], k, v => [(k, v)]
  | (k', v') :: m, k, v =>
    if k' = k then (k, v) :: m else (k', v') :: mapInsert m k v

/-- In-place update of the descriptor at an index, modelling mutation
through the reference returned by `add_option`. -/
def listModify (f : OptDesc → OptDesc) : List OptDesc → Nat → List OptDesc
  | [], _ => []
  | o :: os, 0 => f o :: os
  | o :: os, n + 1 => o :: listModify f os n

/-- Model of `CLI::basic_clipper` (one parser instance): the name index
`_names`, the descriptor vector `_options`, the help/version trigger
names and handle targets, the required counter `any_req` (static in the
source; with a single parser instance it is a field here), the
`_allow_no_args` switch, `_args_count` and the error list `_wrong`. -/
structure Clipper where
  names : List (String × Nat) := []
  options : List OptDesc := []
  helpName : String := ""
  helpAlt : String := ""
  helpPtr : Option Nat := none
  versionName : String := ""
  versionAlt : String := ""
  versionPtr : Option Nat := none
  anyReq : Nat := 0
  allowNoArgs : Bool := false
  argsCount : Nat := 0
  wrong : List String := []

/-- Model of `add_option<Tp>(name)`: the name is mapped to the index the
new descriptor will occupy (overwriting any existing entry) and the
descriptor is appended. -/
def add_option_single (c : Clipper) (ty : VType) (nm : String) : Clipper :=
  { c with
    names := mapInsert c.names nm c.options.length
    options := c.options ++ [{ name := nm, kind := .valK ty [] none }] }

/-- Model of `add_option<Tp>(name, alt_name)`: both names are mapped to
the index of the new descriptor (each insertion overwriting any existing
entry) and the descriptor is appended. -/
def add_option (c : Clipper) (ty : VType) (nm alt : String) : Clipper :=
  { c with
    names := mapInsert (mapInsert c.names nm c.options.length) alt c.options.length
    options := c.options ++ [{ name := nm, alt_name := alt, kind := .valK ty [] none }] }

/-- Model of `add_flag(name)` (`add_option<bool>`). -/
def add_flag_single (c : Clipper) (nm : String) : Clipper :=
  { c with
    names := mapInsert c.names nm c.options.length
    options := c.options ++ [{ name := nm, kind := .flagK }] }

/-- Model of `add_flag(name, alt_name)`. -/
def add_flag (c : Clipper) (nm alt : String) : Clipper :=
  { c with
    names := mapInsert (mapInsert c.names nm c.options.length) alt c.options.length
    options := c.options ++ [{ name := nm, alt_name := alt, kind := .flagK }] }

/-- Model of `option::req()` called through the reference returned by
registration: sets `_req` on descriptor `i` and increments the shared
counter `any_req` (calling it twice double-counts, as in the source). -/
def opt_req (c : Clipper) (i : Nat) : Clipper :=
  { c with
    options := listModify (fun o => { o with req := true }) c.options i
    anyReq := c.anyReq + 1 }

/-- Model of `option::set(value_name, ref)` through the registry: binds
descriptor `i`'s target and writes the value-initialised default. -/
def clip_set (c : Clipper) (st : Store) (i : Nat) (value_name : String)
    (tgt : Nat) : Clipper × Store :=
  let r := OptDesc.set ((c.options.getD i dummyOpt)) value_name tgt st
  ({ c with options := listModify (fun _ => r.1) c.options i }, r.2)

/-- Model of `option<bool>::set(ref)` through the registry. -/
def clip_setFlag (c : Clipper) (st : Store) (i : Nat) (tgt : Nat) :
    Clipper × Store :=
  let r := OptDesc.setFlag ((c.options.getD i dummyOpt)) tgt st
  ({ c with options := listModify (fun _ => r.1) c.options i }, r.2)

/-- Model of `option::match(values...)` / `allow(values...)`: appends
the given values to the allow-list of descriptor `i` (set semantics:
values already present are not duplicated). -/
def opt_match (c : Clipper) (i : Nat) (vs : List Value) : Clipper :=
  { c with
    options := listModify (fun o =>
      match o.kind with
      | .flagK => o
      | .valK ty ml mf =>
        let ml2 := vs.foldl (fun l v => if l.contains v then l else l ++ [v]) ml
        { o with kind := .valK ty ml2 mf })
      c.options i }

/-- Model of `option::validate(doc, pred)` / `require(doc, pred)`:
appends a space and the predicate documentation to `_doc` and installs
the predicate (last write wins). -/
def opt_validate (c : Clipper) (i : Nat) (d : String) (pred : Value → Bool) :
    Clipper :=
  { c with
    options := listModify (fun o =>
      match o.kind with
      | .flagK => o
      | .valK ty ml _ =>
        { o with docStr := o.docStr ++ " " ++ d, kind := .valK ty ml (some pred) })
      c.options i }

/-- Model of `help_flag(name, alt_name)`: records the trigger names;
the dedicated flag is not entered into `_names`. -/
def help_flag (c : Clipper) (nm alt : String) : Clipper :=
  { c with helpName := nm, helpAlt := alt }

/-- Model of `version_flag(name, alt_name)`. -/
def version_flag (c : Clipper) (nm alt : String) : Clipper :=
  { c with versionName := nm, versionAlt := alt }

/-- Model of `set(ref)` on the handle returned by `help_flag`: binds the
help indicator target and writes `false`. -/
def help_flag_set (c : Clipper) (st : Store) (tgt : Nat) : Clipper × Store :=
  ({ c with helpPtr := some tgt }, writeStore st tgt (.vbool false))

/-- Model of `set(ref)` on the handle returned by `version_flag`. -/
def version_flag_set (c : Clipper) (st : Store) (tgt : Nat) : Clipper × Store :=
  ({ c with versionPtr := some tgt }, writeStore st tgt (.vbool false))

/-- Model of `allow_no_args()`. -/
def allow_no_args (c : Clipper) : Clipper :=
  { c with allowNoArgs := true }

/-- Model of `no_args()`: true when the most recent parse saw only the
program name (`_args_count == 1`). -/
def no_args (c : Clipper) : Bool :=
  c.argsCount = 1

/-- Decrement of a `std::size_t` working counter: `req_count--` at zero
wraps modulo `2 ^ 64`. -/
def decSize (n : Nat) : Nat :=
  if n = 0 then 2 ^ 64 - 1 else n - 1

/-- The main token loop of `parse` with `set_option` inlined, threading
the mutable state: the store, the member error list `_wrong` (appended
to, never cleared), the local `err` flag and the working copy
`req_count`.  One iteration: an unrecognized front token is reported
and dropped; a recognized one decrements `req_count` when its descriptor
is required, then a flag target is set to `true`, a value option with no
following token reports a missing value (the queue is exhausted, ending
the loop), and otherwise the next token is consumed as the value and
`assign` is attempted, a throw being reported as an invalid value. -/
def parseLoop (ns : List (String × Nat)) (os : List OptDesc) :
    List String → Store → List String → Bool → Nat →
    Store × List String × Bool × Nat
  | [], st, w, err, reqc => (st, w, err, reqc)
  | tok :: rest, st, w, err, reqc =>
    match mapFind ns tok with
    | none => parseLoop ns os rest st (w ++ [unknownMsg tok]) true reqc
    | some i =>
      let o := os.getD i dummyOpt
      let reqc' := if o.req then decSize reqc else reqc
      match o.kind with
      | .flagK => parseLoop ns os rest (writePtr o.ptr st (.vbool true)) w err reqc'
      | .valK _ _ _ =>
        match rest with
        | [] => (st, w ++ [missingValueMsg tok], true, reqc')
        | vtok :: rest2 =>
          let r := assign o st vtok
          if r.2 then
            parseLoop ns os rest2 r.1 (w ++ [invalidValueMsg tok vtok o]) true reqc'
          else parseLoop ns os rest2 r.1 w err reqc'

/-- The epilogue of `parse`: a non-zero remaining required count appends
the missing-required error (with the leftover count rendered into the
message) and forces failure; otherwise the verdict is `!err`. -/
def finishParse (c : Clipper) (r : Store × List String × Bool × Nat) :
    Clipper × Store × Bool :=
  if r.2.2.2 = 0 then ({ c with wrong := r.2.1 }, r.1, !r.2.2.1)
  else ({ c with wrong := r.2.1 ++ [missingReqMsg r.2.2.2] }, r.1, false)

/-- Model of `basic_clipper::parse(argc, argv)`.  `args` is
`argv[1..]`, the token stream without the program name, so
`argc = args.length + 1`.  Steps, in source order: record
`_args_count`; succeed trivially when `_allow_no_args` is set and the
stream is empty; when the stream is exactly one token equal to the
help (then version) trigger name or alternative name, set that
indicator through its handle and succeed; otherwise run the main loop
seeded with the current `_wrong`, a fresh `err = false` and a fresh
working copy of `any_req`, then apply the epilogue. -/
def parse (c : Clipper) (st : Store) (args : List String) :
    Clipper × Store × Bool :=
  let c1 := { c with argsCount := args.length + 1 }
  if c1.allowNoArgs ∧ c1.argsCount = 1 then (c1, st, true)
  else if args.length = 1 ∧ (args.headD "" = c1.helpName ∨ args.headD "" = c1.helpAlt) then
    (c1, writePtr c1.helpPtr st (.vbool true), true)
  else if args.length = 1 ∧ (args.headD "" = c1.versionName ∨ args.headD "" = c1.versionAlt) then
    (c1, writePtr c1.versionPtr st (.vbool true), true)
  else
    finishParse c1 (parseLoop c1.names c1.options args st c1.wrong false c1.anyReq)

/-- A store of caller variables all holding integer zero. -/
def stZ : Store := fun _ => Value.vint 0

/-- A store of caller variables all holding the string "old". -/
def stOld : Store := fun _ => Value.vstr "old"

/-- A bound string option with allow-list `{"a"}` (registration sequence
`add_option<std::string>("-s").set("v", var).match("a")`), writing to
target 0. -/
def oStrAllow : OptDesc :=
  { name := "-s", vname := "v", ptr := some 0, kind := .valK .strT [Value.vstr "a"] none }

/-- A bound `int` option (registration sequence
`add_option<int>("-c").set("number", var)`), writing to target 0; the
`int` range is the usual 32-bit one. -/
def oInt32 : OptDesc :=
  { name := "-c", vname := "number", ptr := some 0,
    kind := .valK (.intT (-(2 ^ 31)) (2 ^ 31 - 1)) [] none }

/-- Parser with a single required `int` option `-c` bound to target 0,
built by `add_option<int>("-c").set("number", var).req()`. -/
def cReqInt : Clipper × Store :=
  let p := clip_set (add_option_single {} (.intT (-(2 ^ 31)) (2 ^ 31 - 1)) "-c") stZ 0 "number" 0
  (opt_req p.1 0, p.2)

/-- Parser with two required flags `-a` (target 0) and `-b` (target 1),
built by `add_flag("-a").set(a).req(); add_flag("-b").set(b).req()`. -/
def cTwoReq : Clipper × Store :=
  let p1 := clip_setFlag (add_flag_single {} "-a") stZ 0 0
  let c1 := opt_req p1.1 0
  let p2 := clip_setFlag (add_flag_single c1 "-b") p1.2 1 1
  (opt_req p2.1 1, p2.2)

/-- Parser with an optional string option `-n` (target 1) and a help
flag `--help` whose indicator is bound to target 0, built by
`add_option<std::string>("-n").set("name", var);
help_flag("--help").set(help)`. -/
def cHelpVal : Clipper × Store :=
  let p := clip_set (add_option_single {} .strT "-n") stZ 0 "name" 1
  help_flag_set (help_flag p.1 "--help" "") p.2 0

/-- Parser with help (`--help`/`-h`, indicator target 0) and version
(`--version`, indicator target 1) flags and no regular options. -/
def cHV : Clipper × Store :=
  let p := help_flag_set (help_flag {} "--help" "-h") stZ 0
  version_flag_set (version_flag p.1 "--version" "") p.2 1

/-- Parser with no registered options at all. -/
def cEmptyReg : Clipper := {}

/-- Parser with a single non-required `int` option `-c` bound to
target 0. -/
def cIntReg : Clipper × Store :=
  clip_set (add_option_single {} (.intT (-(2 ^ 31)) (2 ^ 31 - 1)) "-c") stZ 0 "number" 0

/-- Parser with one required flag `-r` (target 0) and `allow_no_args()`
enabled. -/
def cAllowReq : Clipper × Store :=
  let p := clip_setFlag (add_flag_single {} "-r") stZ 0 0
  (allow_no_args (opt_req p.1 0), p.2)

/-- The registry after registering `-a` twice with different types:
`add_option<int>("-a"); add_option<std::string>("-a")`. -/
def cDup : Clipper :=
  add_option_single (add_option_single {} (.intT (-(2 ^ 31)) (2 ^ 31 - 1)) "-a") .strT "-a"

/-- Unfolding: the loop ends when the queue is empty. -/
theorem parseLoop_nil (ns : List (String × Nat)) (os : List OptDesc) (st : Store)
    (w : List String) (err : Bool) (reqc : Nat) :
    parseLoop ns os [] st w err reqc = (st, w, err, reqc) := rfl

/-- Unfolding: an unrecognized front token is reported and dropped. -/
theorem parseLoop_unknown (ns : List (String × Nat)) (os : List OptDesc)
    (tok : String) (rest : List String) (st : Store) (w : List String)
    (err : Bool) (reqc : Nat) (h : mapFind ns tok = none) :
    parseLoop ns os (tok :: rest) st w err reqc =
      parseLoop ns os rest st (w ++ [unknownMsg tok]) true reqc := by
  simp only [parseLoop, h]

/-- Unfolding: a recognized flag has its target set to true. -/
theorem parseLoop_flag (ns : List (String × Nat)) (os : List OptDesc)
    (tok : String) (rest : List String) (st : Store) (w : List String)
    (err : Bool) (reqc : Nat) (i : Nat) (h : mapFind ns tok = some i)
    (k : (os.getD i dummyOpt).kind = .flagK) :
    parseLoop ns os (tok :: rest) st w err reqc =
      parseLoop ns os rest (writePtr (os.getD i dummyOpt).ptr st (.vbool true)) w err
        (if (os.getD i dummyOpt).req then decSize reqc else reqc) := by
  simp only [parseLoop, h, k]

/-- Unfolding: a recognized value option with no following token. -/
theorem parseLoop_missing (ns : List (String × Nat)) (os : List OptDesc)
    (tok : String) (st : Store) (w : List String)
    (err : Bool) (reqc : Nat) (i : Nat) (ty : VType) (ml : List Value)
    (mf : Option (Value → Bool)) (h : mapFind ns tok = some i)
    (k : (os.getD i dummyOpt).kind = .valK ty ml mf) :
    parseLoop ns os [tok] st w err reqc =
      (st, w ++ [missingValueMsg tok], true,
       if (os.getD i dummyOpt).req then decSize reqc else reqc) := by
  simp only [parseLoop, h, k]

/-- Unfolding: a recognized value option whose assignment throws. -/
theorem parseLoop_invalid (ns : List (String × Nat)) (os : List OptDesc)
    (tok vtok : String) (rest2 : List String) (st : Store) (w : List String)
    (err : Bool) (reqc : Nat) (i : Nat) (ty : VType) (ml : List Value)
    (mf : Option (Value → Bool)) (h : mapFind ns tok = some i)
    (k : (os.getD i dummyOpt).kind = .valK ty ml mf)
    (t : (assign (os.getD i dummyOpt) st vtok).2 = true) :
    parseLoop ns os (tok :: vtok :: rest2) st w err reqc =
      parseLoop ns os rest2 (assign (os.getD i dummyOpt) st vtok).1
        (w ++ [invalidValueMsg tok vtok (os.getD i dummyOpt)]) true
        (if (os.getD i dummyOpt).req then decSize reqc else reqc) := by
  simp only [parseLoop, h, k, t, if_true]

/-- Unfolding: a recognized value option whose assignment succeeds. -/
theorem parseLoop_ok (ns : List (String × Nat)) (os : List OptDesc)
    (tok vtok : String) (rest2 : List String) (st : Store) (w : List String)
    (err : Bool) (reqc : Nat) (i : Nat) (ty : VType) (ml : List Value)
    (mf : Option (Value → Bool)) (h : mapFind ns tok = some i)
    (k : (os.getD i dummyOpt).kind = .valK ty ml mf)
    (t : (assign (os.getD i dummyOpt) st vtok).2 = false) :
    parseLoop ns os (tok :: vtok :: rest2) st w err reqc =
      parseLoop ns os rest2 (assign (os.getD i dummyOpt) st vtok).1 w err
        (if (os.getD i dummyOpt).req then decSize reqc else reqc) := by
  simp only [parseLoop, h, k, t, Bool.false_eq_true, if_false]

/-- The loop appends to the error list it is seeded with and sets the
error flag exactly when it appended something; the resulting store and
required count do not depend on the seed.  Stated against the canonical
run seeded with an empty list and a clear flag. -/
theorem parseLoop_frame : ∀ (n : Nat) (args : List String), args.length ≤ n →
    ∀ (ns : List (String × Nat)) (os : List OptDesc) (st : Store)
      (w : List String) (err : Bool) (reqc : Nat),
    parseLoop ns os args st w err reqc =
      ((parseLoop ns os args st [] false reqc).1,
       w ++ (parseLoop ns os args st [] false reqc).2.1,
       err || !(parseLoop ns os args st [] false reqc).2.1.isEmpty,
       (parseLoop ns os args st [] false reqc).2.2.2) := by
  intro n
  induction n with
  | zero =>
    intro args hl ns os st w err reqc
    have : args = [] := List.length_eq_zero.mp (Nat.le_zero.mp hl)
    subst this
    simp [parseLoop_nil]
  | succ n ih =>
    intro args hl ns os st w err reqc
    cases args with
    | nil => simp [parseLoop_nil]
    | cons tok rest =>
      have hr : rest.length ≤ n := Nat.le_of_succ_le_succ (by simpa using hl)
      cases hf : mapFind ns tok with
      | none =>
        rw [parseLoop_unknown (h := hf), parseLoop_unknown (h := hf)]
        rw [ih rest hr ns os st (w ++ [unknownMsg tok]) true reqc]
        rw [ih rest hr ns os st ([] ++ [unknownMsg tok]) true reqc]
        simp [List.append_assoc]
      | some i =>
        cases hk : (os.getD i dummyOpt).kind with
        | flagK =>
          rw [parseLoop_flag (h := hf) (k := hk), parseLoop_flag (h := hf) (k := hk)]
          exact ih rest hr ns os _ w err _
        | valK ty ml mf =>
          cases rest with
          | nil =>
            rw [parseLoop_missing (h := hf) (k := hk), parseLoop_missing (h := hf) (k := hk)]
            simp
          | cons vtok rest2 =>
            have hr2 : rest2.length ≤ n := by
              have := Nat.le_of_succ_le_succ (by simpa using hl)
              omega
            cases hth : (assign (os.getD i dummyOpt) st vtok).2 with
            | true =>
              rw [parseLoop_invalid (h := hf) (k := hk) (t := hth),
                  parseLoop_invalid (h := hf) (k := hk) (t := hth)]
              rw [ih rest2 hr2 ns os _ (w ++ [invalidValueMsg tok vtok (os.getD i dummyOpt)]) true _]
              rw [ih rest2 hr2 ns os _ ([] ++ [invalidValueMsg tok vtok (os.getD i dummyOpt)]) true _]
              simp [List.append_assoc]
            | false =>
              rw [parseLoop_ok (h := hf) (k := hk) (t := hth),
                  parseLoop_ok (h := hf) (k := hk) (t := hth)]
              exact ih rest2 hr2 ns os _ w err _

/-- The canonical run's error flag is set exactly when its error list is
non-empty. -/
theorem parseLoop_err (ns : List (String × Nat)) (os : List OptDesc)
    (args : List String) (st : Store) (reqc : Nat) :
    (parseLoop ns os args st [] false reqc).2.2.1 =
      !(parseLoop ns os args st [] false reqc).2.1.isEmpty := by
  conv_lhs => rw [parseLoop_frame args.length args le_rfl ns os st [] false reqc]
  simp

/-- C8: a `parse` call is total (no exception escapes for the four
expected error categories: each is appended to the error list by
`parseLoop`/`finishParse`), errors accumulate over the whole run as a
suffix appended to the pre-existing error list, and the call returns
true exactly when the run itself produced no error entry. -/
theorem parse_verdict_iff_no_new_errors (c : Clipper) (st : Store) (args : List String) :
    ∃ d, (parse c st args).1.wrong = c.wrong ++ d ∧
      ((parse c st args).2.2 = true ↔ d = []) := by
  simp only [parse]
  split_ifs with h1 h2 h3
  · exact ⟨[], by simp, by simp⟩
  · exact ⟨[], by simp, by simp⟩
  · exact ⟨[], by simp, by simp⟩
  · rw [parseLoop_frame args.length args le_rfl]
    simp only [finishParse]
    split_ifs with h4
    · exact ⟨(parseLoop c.names c.options args st [] false c.anyReq).2.1,
        by simp, by simp [List.isEmpty_iff]⟩
    · exact ⟨(parseLoop c.names c.options args st [] false c.anyReq).2.1 ++
          [missingReqMsg ((parseLoop c.names c.options args st [] false c.anyReq).2.2.2)],
        by simp, by simp⟩

/-- C3 (amended): a `parse` call does not clear `_wrong`; the error list
after a call is the pre-existing list followed by exactly the errors
this run produces (the errors of a run from an empty list), while the
verdict and the final stores are those of the run alone — the
required-count tracking is a per-call working copy, but earlier runs'
error strings persist in `wrong`. -/
theorem parse_appends_errors (c : Clipper) (st : Store) (args : List String) :
    (parse c st args).1.wrong = c.wrong ++ (parse { c with wrong := [] } st args).1.wrong
  ∧ (parse c st args).2.2 = (parse { c with wrong := [] } st args).2.2
  ∧ (parse c st args).2.1 = (parse { c with wrong := [] } st args).2.1 := by
  simp only [parse]
  split_ifs with h1 h2 h3
  · exact ⟨by simp, rfl, rfl⟩
  · exact ⟨by simp, rfl, rfl⟩
  · exact ⟨by simp, rfl, rfl⟩
  · rw [parseLoop_frame args.length args le_rfl]
    simp only [finishParse]
    split_ifs with h4
    · refine ⟨by simp, ?_, by simp⟩
      simp [parseLoop_err]
    · exact ⟨by simp, rfl, by simp⟩

/-- C3 (counterexample to the claim as stated): after two consecutive
`parse` calls on the same instance, `wrong` holds the first run's error
followed by the second run's — not exactly the second call's errors. -/
theorem parse_error_list_persists :
    (parse (parse cEmptyReg stZ ["x"]).1 stZ ["y"]).1.wrong =
      [unknownMsg "x", unknownMsg "y"]
  ∧ (parse (parse cEmptyReg stZ ["x"]).1 stZ ["y"]).1.wrong ≠ [unknownMsg "y"] := by
  decide

/-- Lookup after map insertion at the same key yields the new value:
`unordered_map::operator[]` assignment replaces an existing entry. -/
theorem mapFind_mapInsert_self (m : List (String × Nat)) (k : String) (v : Nat) :
    mapFind (mapInsert m k v) k = some v := by
  induction m with
  | nil => simp [mapInsert, mapFind]
  | cons p m ih =>
    obtain ⟨k', v'⟩ := p
    by_cases h : k' = k
    · simp [mapInsert, mapFind, h]
    · simp [mapInsert, mapFind, h, ih]

/-- C4 (amended): registering a name that collides with an existing
entry does not fail; `_names[name] = _options.size()` silently redirects
the name to the new descriptor, and the new descriptor is appended (the
old one stays in the vector, no longer reachable under that name).  The
same holds for an `alt_name` collision in the two-name overload. -/
theorem add_option_overwrite_semantics (c : Clipper) (ty : VType) (nm : String) (j : Nat)
    (_h : mapFind c.names nm = some j) :
    mapFind (add_option_single c ty nm).names nm = some c.options.length
  ∧ (add_option_single c ty nm).options.length = c.options.length + 1
  ∧ ∀ alt, mapFind (add_option c ty nm alt).names alt = some c.options.length := by
  refine ⟨?_, by simp [add_option_single], ?_⟩
  · simp [add_option_single, mapFind_mapInsert_self]
  · intro alt
    simp [add_option, mapFind_mapInsert_self]

/-- C4 (counterexample to the claim as stated): registering `-a` twice
raises no duplicate-name error; the first registration maps `-a` to
descriptor 0, the second silently remaps `-a` to descriptor 1. -/
theorem add_option_duplicate_silently_replaces :
    mapFind (add_option_single {} (.intT (-(2 ^ 31)) (2 ^ 31 - 1)) "-a").names "-a" = some 0
  ∧ mapFind cDup.names "-a" = some 1
  ∧ cDup.options.length = 2 := by
  decide

/-- C4 (witness): the overwrite theorem applied to the concrete
double registration of `-a`. -/
theorem add_option_overwrite_semantics_witness :
    mapFind cDup.names "-a" = some 1 ∧ cDup.options.length = 2 := by
  have h := add_option_overwrite_semantics
    (add_option_single {} (.intT (-(2 ^ 31)) (2 ^ 31 - 1)) "-a") .strT "-a" 0 (by decide)
  exact ⟨h.1, h.2.1⟩

/-- C6 (amended): a stream of exactly one token equal to the registered
help name or alternative sets the help indicator through its handle,
changes nothing else (same store elsewhere, same error list) and returns
success; likewise for the version flag (checked after help).  When such
a token appears in a stream with at least one other token, it is not
treated as help/version; if the parser reaches it in name position
(front of the queue) it is reported as an unknown argument, because the
dedicated names are outside `_names`, and the run fails. -/
theorem help_version_short_circuit :
    (∀ (c : Clipper) (st : Store) (tok : String),
        tok = c.helpName ∨ tok = c.helpAlt →
        parse c st [tok] = ({ c with argsCount := 2 }, writePtr c.helpPtr st (.vbool true), true))
  ∧ (∀ (c : Clipper) (st : Store) (tok : String),
        tok = c.versionName ∨ tok = c.versionAlt →
        tok ≠ c.helpName → tok ≠ c.helpAlt →
        parse c st [tok] = ({ c with argsCount := 2 }, writePtr c.versionPtr st (.vbool true), true))
  ∧ (∀ (c : Clipper) (st : Store) (tok : String) (rest : List String),
        tok = c.helpName ∨ tok = c.helpAlt ∨ tok = c.versionName ∨ tok = c.versionAlt →
        mapFind c.names tok = none → rest ≠ [] →
        unknownMsg tok ∈ (parse c st (tok :: rest)).1.wrong ∧
          (parse c st (tok :: rest)).2.2 = false) := by
  refine ⟨?_, ?_, ?_⟩
  · intro c st tok h
    simp only [parse]
    rw [if_neg (by simp), if_pos (by exact ⟨by simp, by simpa using h⟩)]
    simp
  · intro c st tok h h1 h2
    simp only [parse]
    rw [if_neg (by simp),
        if_neg (by rintro ⟨-, hor⟩; simp only [List.headD_cons] at hor;
                   rcases hor with h' | h'; exacts [h1 h', h2 h']),
        if_pos (by exact ⟨by simp, by simpa using h⟩)]
    simp
  · intro c st tok rest h hn hr
    simp only [parse]
    rw [if_neg (by simp),
        if_neg (by rintro ⟨hlen, -⟩; exact hr (List.length_eq_zero.mp (by simpa using hlen))),
        if_neg (by rintro ⟨hlen, -⟩; exact hr (List.length_eq_zero.mp (by simpa using hlen)))]
    rw [parseLoop_unknown (h := hn)]
    rw [parseLoop_frame rest.length rest le_rfl]
    simp only [finishParse]
    split_ifs with h4
    · constructor
      · simp [List.mem_append]
      · simp
    · constructor
      · simp [List.mem_append]
      · simp

/-- C6 (counterexample to the claim as stated): with help `--help`
registered (indicator target 0) and a string option `-n` (target 1),
the stream `-n --help` consumes `--help` as the value of `-n`: the run
succeeds with an empty error list, no unknown-argument error is
produced, and the help indicator stays false. -/
theorem help_token_as_value_no_error :
    (parse cHelpVal.1 cHelpVal.2 ["-n", "--help"]).2.2 = true
  ∧ (parse cHelpVal.1 cHelpVal.2 ["-n", "--help"]).1.wrong = []
  ∧ (parse cHelpVal.1 cHelpVal.2 ["-n", "--help"]).2.1 0 = Value.vbool false
  ∧ (parse cHelpVal.1 cHelpVal.2 ["-n", "--help"]).2.1 1 = Value.vstr "--help" := by
  decide

/-- C6 (witness): the short-circuit theorem applied to a parser with
`--help`/`-h` and `--version` registered: the lone help token, the lone
version token, and help combined with another token. -/
theorem help_version_short_circuit_witness :
    parse cHV.1 cHV.2 ["--help"] =
      ({ cHV.1 with argsCount := 2 }, writePtr cHV.1.helpPtr cHV.2 (.vbool true), true)
  ∧ parse cHV.1 cHV.2 ["--version"] =
      ({ cHV.1 with argsCount := 2 }, writePtr cHV.1.versionPtr cHV.2 (.vbool true), true)
  ∧ unknownMsg "--help" ∈ (parse cHV.1 cHV.2 ["--help", "-x"]).1.wrong
  ∧ (parse cHV.1 cHV.2 ["--help", "-x"]).2.2 = false := by
  refine ⟨help_version_short_circuit.1 cHV.1 cHV.2 "--help" (by decide),
          help_version_short_circuit.2.1 cHV.1 cHV.2 "--version" (by decide) (by decide) (by decide),
          (help_version_short_circuit.2.2 cHV.1 cHV.2 "--help" ["-x"] (by decide) (by decide) (by decide)).1,
          (help_version_short_circuit.2.2 cHV.1 cHV.2 "--help" ["-x"] (by decide) (by decide) (by decide)).2⟩

/-- C9: with `allow_no_args()` enabled, parsing an empty token stream
(only the program name) returns success and only records
`_args_count = 1`: the store is untouched (no defaults re-applied, no
descriptor written), the error list is unchanged (required descriptors
cause no error), and `no_args()` afterwards reports true. -/
theorem parse_allow_no_args_empty (c : Clipper) (st : Store) (h : c.allowNoArgs = true) :
    parse c st [] = ({ c with argsCount := 1 }, st, true) ∧
    no_args (parse c st []).1 = true := by
  have hp : parse c st [] = ({ c with argsCount := 1 }, st, true) := by
    simp only [parse]
    rw [if_pos (by simp [h])]
    rfl
  refine ⟨hp, ?_⟩
  rw [hp]
  simp [no_args]

/-- C9 (witness): the empty-stream theorem applied to a parser with a
required flag and `allow_no_args()` enabled. -/
theorem parse_allow_no_args_empty_witness :
    parse cAllowReq.1 cAllowReq.2 [] = ({ cAllowReq.1 with argsCount := 1 }, cAllowReq.2, true)
  ∧ no_args (parse cAllowReq.1 cAllowReq.2 []).1 = true := by
  exact parse_allow_no_args_empty cAllowReq.1 cAllowReq.2 (by decide)

/-- C10: `set` immediately overwrites the caller's variable: without a
default it writes the value-initialised default of the descriptor's
type (zero for integral options, empty string for string/path options),
with a default it writes that default, and the flag overload writes
`false` — all at `set` time, before any parse call, discarding whatever
the variable held. -/
theorem set_writes_default_immediately :
    (∀ (o : OptDesc) (vn : String) (tgt : Nat) (st : Store),
       ((OptDesc.set o vn tgt st).2) tgt = defaultValue o.tyOf ∧
       (OptDesc.set o vn tgt st).1.ptr = some tgt)
  ∧ (∀ (o : OptDesc) (vn : String) (tgt : Nat) (d : Value) (st : Store),
       ((OptDesc.setD o vn tgt d st).2) tgt = d ∧
       (OptDesc.setD o vn tgt d st).1.ptr = some tgt)
  ∧ (∀ (o : OptDesc) (tgt : Nat) (st : Store),
       ((OptDesc.setFlag o tgt st).2) tgt = Value.vbool false ∧
       (OptDesc.setFlag o tgt st).1.ptr = some tgt)
  ∧ (∀ lo hi, defaultValue (.intT lo hi) = Value.vint 0)
  ∧ defaultValue .strT = Value.vstr "" ∧ defaultValue .pathT = Value.vstr "" := by
  refine ⟨?_, ?_, ?_, ?_, rfl, rfl⟩ <;> intros <;>
    simp [OptDesc.set, OptDesc.setD, OptDesc.setFlag, writeStore, defaultValue]

/-- C1 (amended): `assign` failure behaviour depends on the value type.
For integral and character options a throw leaves every caller variable
exactly as it was (the conversion happens in a temporary).  For string
and path options the converted token is written through the target
first and only then validated, so the store after `assign` — successful
or not — is the store with the token written, and an allow-list or
validator rejection throws with the target already overwritten. -/
theorem assign_atomicity_by_type (o : OptDesc) (st : Store) (tok : String)
    (ml : List Value) (mf : Option (Value → Bool)) :
    (∀ lo hi, o.kind = .valK (.intT lo hi) ml mf → (assign o st tok).2 = true →
       ∀ j, (assign o st tok).1 j = st j)
  ∧ (o.kind = .valK .charT ml mf → (assign o st tok).2 = true →
       ∀ j, (assign o st tok).1 j = st j)
  ∧ (o.kind = .valK .strT ml mf →
       (∀ j, (assign o st tok).1 j = writePtr o.ptr st (.vstr tok) j) ∧
       (validateV ml mf (.vstr tok) = false → (assign o st tok).2 = true))
  ∧ (o.kind = .valK .pathT ml mf →
       (∀ j, (assign o st tok).1 j = writePtr o.ptr st (.vstr tok) j) ∧
       (validateV ml mf (.vstr tok) = false → (assign o st tok).2 = true)) := by
  refine ⟨?_, ?_, ?_, ?_⟩
  · intro lo hi hk ht j
    simp only [assign, hk] at ht ⊢
    cases hfc : from_chars_int lo hi tok with
    | none => simp [hfc]
    | some n =>
      simp only [hfc] at ht ⊢
      cases hval : validateV ml mf (.vint n) with
      | true => simp [hval] at ht
      | false => simp [hval]
  · intro hk ht j
    simp only [assign, hk] at ht ⊢
    cases hc : tok.data.head? with
    | none => simp [hc]
    | some ch =>
      simp only [hc] at ht ⊢
      cases hval : validateV ml mf (.vchar ch) with
      | true => simp [hval] at ht
      | false => simp [hval]
  · intro hk
    constructor
    · intro j
      simp only [assign, hk]
      cases hval : validateV ml mf (.vstr tok) <;> simp [hval]
    · intro hv
      simp [assign, hk, hv]
  · intro hk
    constructor
    · intro j
      simp only [assign, hk]
      cases hval : validateV ml mf (.vstr tok) <;> simp [hval]
    · intro hv
      simp [assign, hk, hv]

/-- C1 (counterexample to the claim as stated): a string option with
allow-list `{"a"}` and target holding `"old"`: assigning `"b"` throws,
yet the write target now holds `"b"`, not its prior value. -/
theorem assign_string_overwrites_on_failure :
    (assign oStrAllow stOld "b").2 = true
  ∧ (assign oStrAllow stOld "b").1 0 ≠ stOld 0
  ∧ (assign oStrAllow stOld "b").1 0 = Value.vstr "b" := by
  decide

/-- C1 (witness): the atomicity theorem applied to a bound `int` option
and the unconvertible token `"x"`: the assignment fails and target 0 is
unchanged. -/
theorem assign_atomicity_by_type_witness :
    (assign oInt32 stZ "x").2 = true ∧ (assign oInt32 stZ "x").1 0 = stZ 0 := by
  have h := (assign_atomicity_by_type oInt32 stZ "x" [] none).1 (-(2 ^ 31)) (2 ^ 31 - 1)
    rfl (by decide)
  exact ⟨by decide, h 0⟩

/-- C7: a numeric token whose value lies outside the destination
integral type's range is a conversion failure: `assign` throws, every
caller variable keeps its prior value (no wrapping or truncation), and
during a parse the option records an invalid-value error and makes the
run fail. -/
theorem assign_numeric_overflow_fails (lo hi : Int) (ml : List Value)
    (mf : Option (Value → Bool)) (o : OptDesc) (st : Store) (tok : String) (n : Int)
    (hk : o.kind = .valK (.intT lo hi) ml mf)
    (hv : numPrefixVal (decide (lo < 0)) tok = some n)
    (hout : ¬(lo ≤ n ∧ n ≤ hi)) :
    (assign o st tok).2 = true ∧ (∀ j, (assign o st tok).1 j = st j) ∧
    ∀ (c : Clipper) (nm : String) (i : Nat),
      mapFind c.names nm = some i → c.options.getD i dummyOpt = o →
      o.req = false → c.anyReq = 0 →
      (parse c st [nm, tok]).1.wrong = c.wrong ++ [invalidValueMsg nm tok o] ∧
      (parse c st [nm, tok]).2.2 = false := by
  have hfc : from_chars_int lo hi tok = none := by
    simp [from_chars_int, hv, hout]
  have hth : (assign o st tok).2 = true := by simp [assign, hk, hfc]
  have hst : ∀ j, (assign o st tok).1 j = st j := by
    intro j
    simp [assign, hk, hfc]
  refine ⟨hth, hst, ?_⟩
  intro c nm i hf ho hreq hany
  simp only [parse]
  rw [if_neg (by simp), if_neg (by simp), if_neg (by simp)]
  rw [parseLoop_invalid (h := hf) (k := by rw [ho, hk]) (t := by rw [ho]; exact hth)]
  simp only [ho, hreq, hany, Bool.false_eq_true, if_false, parseLoop_nil, finishParse]
  simp

/-- C7 (witness): the overflow theorem applied to the 32-bit `-c`
option and the spec's token `"5000000000"`, at the assign level and
through a full parse. -/
theorem assign_numeric_overflow_fails_witness :
    (assign oInt32 cIntReg.2 "5000000000").2 = true
  ∧ (assign oInt32 cIntReg.2 "5000000000").1 0 = cIntReg.2 0
  ∧ (parse cIntReg.1 cIntReg.2 ["-c", "5000000000"]).2.2 = false := by
  have h := assign_numeric_overflow_fails (-(2 ^ 31)) (2 ^ 31 - 1) [] none oInt32
    cIntReg.2 "5000000000" 5000000000 rfl (by decide) (by decide)
  exact ⟨h.1, h.2.1 0, (h.2.2 cIntReg.1 "-c" 0 rfl rfl rfl rfl).2⟩

/-- C2 (code bug): with one required `int` option `-c`, the stream
`-c 1 -c 2` exercises last-write-wins (the target ends at 2), but each
match decrements the unsigned `size_t` working copy of the required
counter, which wraps past zero on the second match; the run therefore
fails with a spurious missing-required error carrying the wrapped count,
although the repository's own test `ClipperTest.ParsingRepeatedOptions`
expects repeated required options to parse successfully. -/
theorem parse_repeated_required_spurious_error :
    (parse cReqInt.1 cReqInt.2 ["-c", "1", "-c", "2"]).2.1 0 = Value.vint 2
  ∧ (parse cReqInt.1 cReqInt.2 ["-c", "1", "-c", "2"]).2.2 = false
  ∧ (parse cReqInt.1 cReqInt.2 ["-c", "1", "-c", "2"]).1.wrong =
      ["Missing required argument(s) 18446744073709551615"] := by
  decide

/-- C5 (code bug): with required flags `-a` and `-b`, the stream
`-a -a` never names `-b`, yet the run succeeds with an empty error
list: the required counter is decremented once per match rather than
once per descriptor, so the repeated `-a` compensates for the missing
`-b` (whose target indeed stays at its default `false`). -/
theorem parse_missing_required_masked_by_repeat :
    (parse cTwoReq.1 cTwoReq.2 ["-a", "-a"]).2.2 = true
  ∧ (parse cTwoReq.1 cTwoReq.2 ["-a", "-a"]).1.wrong = []
  ∧ (parse cTwoReq.1 cTwoReq.2 ["-a", "-a"]).2.1 1 = Value.vbool false := by
  decide
